import Mathlib

/-!
Shallow embedding of the QuickClinic back-end handlers:
the authentication middleware (`authenticate`, `authorize`), the
prescription controller (`createPrescription`, `getPatientPrescriptions`,
`getDoctorPrescriptions`, `getPrescription`) and the doctor-profile
controller (`createDoctorProfile`, `updateDoctorProfile`,
`getDoctorsByClinic`).  The document store is modelled as lists of
records; `findOne`/`findById` become `List.find?`, `find` becomes
`List.filter`, and a `save` of a new document appends to the list while
a `save` of an existing document replaces it by `_id`.  JavaScript
truthiness on string-valued fields is modelled by `truthy` (the empty
string models a missing/empty value); an absent request-body field is
modelled by `Option`.
-/

/-- Document ids (Mongo ObjectIds serialised as strings). -/
abbrev OId := String

/-- JavaScript truthiness of a string value: `""` (our model of an
absent or empty field) is falsy, everything else truthy. -/
def truthy (s : String) : Bool := s != ""

/-- Hexadecimal character test, as in the ObjectId pattern `[0-9a-fA-F]`. -/
def isHexChar (c : Char) : Bool :=
  c.isDigit || ('a' ≤ c && c ≤ 'f') || ('A' ≤ c && c ≤ 'F')

/-- Modelled from the spec: `mongoose.Types.ObjectId.isValid` is an external
library call; it accepts a 24-character hexadecimal string (or any
12-character string, Mongo's raw-byte form). -/
def isValidObjectId (s : String) : Bool :=
  s.length == 12 || (s.length == 24 && s.toList.all isHexChar)

/-- Read a field of a plain JS object modelled as an association list. -/
def getField (data : List (String × String)) (k : String) : Option String :=
  (data.find? (fun kv => kv.1 == k)).map (fun kv => kv.2)

/-- JS property assignment `obj[k] = v`: overwrite in place, else append. -/
def setField (data : List (String × String)) (k v : String) : List (String × String) :=
  if (data.find? (fun kv => kv.1 == k)).isSome then
    data.map (fun kv => if kv.1 == k then (k, v) else kv)
  else
    data ++ [(k, v)]

/-- Mongoose `$set`-style update: apply every key of `updates` in order. -/
def applyUpdates (data updates : List (String × String)) : List (String × String) :=
  updates.foldl (fun acc kv => setField acc kv.1 kv.2) data

/-- One entry of a prescription's medication list; the four fields the
controller requires.  `""` models an absent/empty value. -/
structure Medication where
  name : String
  dosage : String
  frequency : String
  duration : String
  deriving Repr, DecidableEq

/-- An Appointment document: links a doctor and a patient and optionally
references a Prescription (spec §3). -/
structure Appointment where
  _id : OId
  doctorId : OId
  patientId : OId
  date : Int
  reason : String
  prescriptionId : Option OId
  deriving Repr, DecidableEq

/-- A Prescription document (spec §3): diagnosis, medication list, tests,
notes, follow-up date, linked to one appointment/doctor/patient; `date`
is its creation timestamp, used for descending sort. -/
structure Prescription where
  _id : OId
  appointmentId : OId
  doctorId : OId
  patientId : OId
  diagnosis : String
  medications : List Medication
  tests : List String
  notes : String
  followUpDate : Option Int
  date : Int
  deriving Repr, DecidableEq

/-- Modelled from the spec: the Mongoose schemas under `models/` are not in
`src/`; a User document carries identity and role (spec §3) plus the
fields the controllers' `populate` select-lists name
(`name specialization licenseNumber`, `name dateOfBirth gender`). -/
structure UserDoc where
  _id : OId
  role : String
  name : String
  specialization : String
  licenseNumber : String
  dateOfBirth : String
  gender : String
  deriving Repr, DecidableEq

/-- A role-specific profile document (Admin/Patient), one-to-one with a
User via `userId` (spec §3). -/
structure ProfileDoc where
  _id : OId
  userId : OId
  deriving Repr, DecidableEq

/-- A Doctor profile document.  Beyond the `userId` link its fields
(specialization, qualifications, clinicId, profilePicture, …) are kept as
a plain JS object, since the controller reads and merges them generically. -/
structure DoctorDoc where
  _id : OId
  userId : OId
  data : List (String × String)
  deriving Repr, DecidableEq

/-- Modelled from the spec: the Clinic model is not in `src/`; only the
fields of the `populate('clinicId', 'name location')` select-list appear. -/
structure ClinicDoc where
  _id : OId
  name : String
  location : String
  deriving Repr, DecidableEq

/-- The document store: one list per collection, in natural order. -/
structure DB where
  users : List UserDoc
  admins : List ProfileDoc
  patients : List ProfileDoc
  doctors : List DoctorDoc
  clinics : List ClinicDoc
  appointments : List Appointment
  prescriptions : List Prescription
  deriving Repr, DecidableEq

/-- `User.findById` (also the `populate` lookup for doctor/patient refs). -/
def findUser (db : DB) (uid : OId) : Option UserDoc :=
  db.users.find? (fun u => u._id == uid)

/-- `populate('appointmentId', …)` lookup. -/
def findAppt (db : DB) (aid : OId) : Option Appointment :=
  db.appointments.find? (fun a => a._id == aid)

/-- Insert a prescription into a list already sorted by descending `date`,
keeping the descending order (the model of the query-level
`sort(\x7b date: -1 \x7d)`). -/
def insertDesc (x : Prescription) : List Prescription → List Prescription
  | [] => [x]
  | y :: ys => if x.date ≤ y.date then y :: insertDesc x ys else x :: y :: ys

/-- `sort(\x7b date: -1 \x7d)`: stable sort by descending `date`. -/
def sortByDateDesc (l : List Prescription) : List Prescription :=
  l.foldr insertDesc []

/-! ## Authentication middleware (`authenticate`) -/

/-- One step of splitting a character list on a separator: extend the
current (first) chunk, or start a new chunk at a separator. -/
def splitStep (sep ch : Char) (acc : List (List Char)) : List (List Char) :=
  match acc with
  | [] => [[ch]]
  | cur :: rest => if ch == sep then [] :: cur :: rest else (ch :: cur) :: rest

/-- JavaScript `s.split(sep)` for a one-character separator: splitting the
empty string gives `[""]`, like JS. -/
def splitOnChar (sep : Char) (s : String) : List String :=
  (s.data.foldr (splitStep sep) [[]]).map (fun cs => String.mk cs)

/-- `authHeader?.split(' ')[1]`: the bearer token is the second
space-separated component of the Authorization header, when present. -/
def extractToken (authHeader : Option String) : Option String :=
  match authHeader with
  | none => none
  | some h => (splitOnChar ' ' h).get? 1

/-- The role-based profile lookup of the middleware: `Admin.findOne`,
`Doctor.findOne` or `Patient.findOne` on `userId`, returning the profile's
`_id`; any other role leaves the profile undefined. -/
def findProfile (db : DB) (u : UserDoc) : Option OId :=
  match u.role with
  | "admin" => (db.admins.find? (fun p => p.userId == u._id)).map (fun p => p._id)
  | "doctor" => (db.doctors.find? (fun d => d.userId == u._id)).map (fun d => d._id)
  | "patient" => (db.patients.find? (fun p => p.userId == u._id)).map (fun p => p._id)
  | _ => none

/-- The merged identity the middleware attaches to the request:
`\x7b ...user.toObject(), userId: user._id, profileId: profile._id, role: user.role \x7d`. -/
structure AuthUser where
  user : UserDoc
  userId : OId
  profileId : OId
  role : String
  deriving Repr, DecidableEq

/-- Outcome of the `authenticate` middleware. -/
inductive AuthOut where
  | missingToken (message : String)
  | invalidToken (message : String)
  | userNotFound (message : String)
  | profileNotFound (message : String)
  | ok (reqUser : AuthUser)
  deriving Repr, DecidableEq

/-- HTTP status of each rejection branch of `authenticate`
(`none` when the middleware calls `next()`). -/
def AuthOut.statusCode : AuthOut → Option Nat
  | .missingToken _ => some 401
  | .invalidToken _ => some 403
  | .userNotFound _ => some 404
  | .profileNotFound _ => some 404
  | .ok _ => none

/-- The `authenticate` middleware.  The `if (!token)` check catches both
an absent and an empty extracted token (JS falsiness), answering 401
before any verification.  `verify` models the external
`verifyAccessToken` of `tokenService.js` (not in `src/`): it returns the
decoded `userId` or fails (models the throw for an invalid/expired token,
which the middleware's catch turns into a 403). -/
def authenticate (verify : String → Except Unit OId) (db : DB)
    (authHeader : Option String) : AuthOut :=
  match extractToken authHeader with
  | none => .missingToken "Authentication required"
  | some token =>
    if !truthy token then
      .missingToken "Authentication required"
    else
    match verify token with
    | Except.error _ => .invalidToken "Invalid or expired token"
    | Except.ok decodedUserId =>
      match findUser db decodedUserId with
      | none => .userNotFound "User not found"
      | some user =>
        match findProfile db user with
        | none => .profileNotFound "Profile not found"
        | some pid =>
          .ok { user := user, userId := user._id, profileId := pid, role := user.role }

/-- The `authorize(...roles)` middleware factory: reject unless the
resolved role is in the allow-list. -/
def authorize (roles : List String) (reqUser : AuthUser) : Bool :=
  roles.contains reqUser.role

/-! ## Prescription controller: `createPrescription` -/

/-- A create-prescription request: `req.user.userId`, the `appointmentId`
path parameter, and the destructured body fields. -/
structure RxReq where
  userId : OId
  appointmentId : String
  diagnosis : String
  medications : Option (List Medication)
  tests : List String
  notes : String
  followUpDate : Option Int
  deriving Repr, DecidableEq

/-- `!med.name || !med.dosage || !med.frequency || !med.duration`. -/
def medMissingFields (m : Medication) : Bool :=
  !truthy m.name || !truthy m.dosage || !truthy m.frequency || !truthy m.duration

/-- The `medications.forEach((med, index) => … push(…))` loop: collect one
message per invalid entry, in order, numbering entries from `idx + 1`. -/
def collectMedErrors : List Medication → Nat → List String
  | [], _ => []
  | m :: rest, idx =>
    (if medMissingFields m then
       ["Medication " ++ toString (idx + 1) ++ " is missing required fields"]
     else []) ++ collectMedErrors rest (idx + 1)

/-- Responses of `createPrescription`.  `missingFields` carries the
`errors` object (a field is `none` when JSON serialisation drops the
`undefined` value). -/
inductive CreateRxOut where
  | missingFields (message : String) (errAppointmentId errMedications : Option String)
  | apptNotFound (message : String)
  | medValidationFailed (message : String) (errors : List String)
  | created (message : String) (prescription : Prescription)
  deriving Repr, DecidableEq

/-- HTTP status of each `createPrescription` response. -/
def CreateRxOut.statusCode : CreateRxOut → Nat
  | .missingFields .. => 400
  | .apptNotFound _ => 404
  | .medValidationFailed .. => 400
  | .created .. => 201

/-- `createPrescription(req, res)`: presence validation, ownership lookup,
batch medication validation, then persist and back-fill
`appointment.prescriptionId`.  `freshId` is the `_id` Mongo assigns to the
new document and `now` its creation timestamp.  Returns the response and
the updated store. -/
def createPrescription (db : DB) (req : RxReq) (freshId : OId) (now : Int) :
    CreateRxOut × DB :=
  let medsMissing := req.medications.isNone || (req.medications.getD []).isEmpty
  if !truthy req.appointmentId || medsMissing then
    (.missingFields "Appointment ID and medications are required"
      (if !truthy req.appointmentId then some "Appointment ID is required" else none)
      (if medsMissing then some "At least one medication is required" else none),
     db)
  else
    match db.appointments.find?
        (fun a => a._id == req.appointmentId && a.doctorId == req.userId) with
    | none => (.apptNotFound "Appointment not found or not authorized", db)
    | some appointment =>
      let meds := req.medications.getD []
      let medicationErrors := collectMedErrors meds 0
      if !medicationErrors.isEmpty then
        (.medValidationFailed "Medication validation failed" medicationErrors, db)
      else
        let prescription : Prescription :=
          { _id := freshId
            appointmentId := req.appointmentId
            doctorId := req.userId
            patientId := appointment.patientId
            diagnosis := req.diagnosis
            medications := meds
            tests := req.tests
            notes := req.notes
            followUpDate := req.followUpDate
            date := now }
        let db1 : DB := { db with prescriptions := db.prescriptions ++ [prescription] }
        let updatedAppt : Appointment :=
          { appointment with prescriptionId := some prescription._id }
        let db2 : DB :=
          { db1 with
            appointments :=
              db1.appointments.map
                (fun a => if a._id == appointment._id then updatedAppt else a) }
        (.created "Prescription created successfully" prescription, db2)

/-! ## Prescription controller: listings -/

/-- `populate('doctorId', 'name specialization')` projection. -/
structure RxDoctorBrief where
  name : String
  specialization : String
  deriving Repr, DecidableEq

/-- `populate('patientId', 'name')` projection. -/
structure RxPatientBrief where
  name : String
  deriving Repr, DecidableEq

/-- `populate('appointmentId', 'date')` projection. -/
structure RxApptBrief where
  date : Int
  deriving Repr, DecidableEq

/-- A prescription as returned by the patient listing: the record with its
doctor and appointment references populated. -/
structure PatientViewRx where
  rx : Prescription
  doctor : Option RxDoctorBrief
  appointment : Option RxApptBrief
  deriving Repr, DecidableEq

/-- A prescription as returned by the doctor listing. -/
structure DoctorViewRx where
  rx : Prescription
  patient : Option RxPatientBrief
  appointment : Option RxApptBrief
  deriving Repr, DecidableEq

/-- Populate one record for the patient listing. -/
def populatePatientView (db : DB) (p : Prescription) : PatientViewRx :=
  { rx := p
    doctor := (findUser db p.doctorId).map
      (fun u => { name := u.name, specialization := u.specialization })
    appointment := (findAppt db p.appointmentId).map (fun a => { date := a.date }) }

/-- Populate one record for the doctor listing. -/
def populateDoctorView (db : DB) (p : Prescription) : DoctorViewRx :=
  { rx := p
    patient := (findUser db p.patientId).map (fun u => { name := u.name })
    appointment := (findAppt db p.appointmentId).map (fun a => { date := a.date }) }

/-- Body of a listing response for the patient view. -/
structure PatientListOut where
  count : Nat
  prescriptions : List PatientViewRx
  deriving Repr, DecidableEq

/-- Body of a listing response for the doctor view. -/
structure DoctorListOut where
  count : Nat
  prescriptions : List DoctorViewRx
  deriving Repr, DecidableEq

/-- `getPatientPrescriptions`: `find(\x7b patientId: userId \x7d)`, populate,
sort by descending date, respond with the records and their count. -/
def getPatientPrescriptions (db : DB) (userId : OId) : PatientListOut :=
  let found := db.prescriptions.filter (fun p => p.patientId == userId)
  let sorted := sortByDateDesc found
  let populated := sorted.map (populatePatientView db)
  { count := populated.length, prescriptions := populated }

/-- The query object of `getDoctorPrescriptions`:
`\x7b doctorId: userId \x7d`, plus `patientId` when that query parameter is
truthy (`if (patientId) query.patientId = patientId`). -/
def doctorQuery (userId : OId) (patientId : Option String) (p : Prescription) : Bool :=
  p.doctorId == userId &&
    (match patientId with
     | none => true
     | some pid => if truthy pid then p.patientId == pid else true)

/-- `getDoctorPrescriptions`: filter by the query object, populate, sort
by descending date, respond with records and count. -/
def getDoctorPrescriptions (db : DB) (userId : OId) (patientId : Option String) :
    DoctorListOut :=
  let found := db.prescriptions.filter (doctorQuery userId patientId)
  let sorted := sortByDateDesc found
  let populated := sorted.map (populateDoctorView db)
  { count := populated.length, prescriptions := populated }

/-! ## Prescription controller: single read -/

/-- `populate('doctorId', 'name specialization licenseNumber')`. -/
structure RxDoctorFull where
  name : String
  specialization : String
  licenseNumber : String
  deriving Repr, DecidableEq

/-- `populate('patientId', 'name dateOfBirth gender')`. -/
structure RxPatientFull where
  name : String
  dateOfBirth : String
  gender : String
  deriving Repr, DecidableEq

/-- `populate('appointmentId', 'date reason')`. -/
structure RxApptFull where
  date : Int
  reason : String
  deriving Repr, DecidableEq

/-- The fully populated single-prescription response body, including the
sensitive `licenseNumber` and `dateOfBirth` fields. -/
structure FullRx where
  rx : Prescription
  doctor : Option RxDoctorFull
  patient : Option RxPatientFull
  appointment : Option RxApptFull
  deriving Repr, DecidableEq

/-- Populate one record for the single-prescription read. -/
def populateFullView (db : DB) (p : Prescription) : FullRx :=
  { rx := p
    doctor := (findUser db p.doctorId).map
      (fun u => { name := u.name, specialization := u.specialization,
                  licenseNumber := u.licenseNumber })
    patient := (findUser db p.patientId).map
      (fun u => { name := u.name, dateOfBirth := u.dateOfBirth, gender := u.gender })
    appointment := (findAppt db p.appointmentId).map
      (fun a => { date := a.date, reason := a.reason }) }

/-- A single-prescription request as the handler receives it: the identity
attached by the middleware plus the `prescriptionId` path parameter.  The
handler destructures only `req.params`. -/
structure GetRxReq where
  user : AuthUser
  prescriptionId : String
  deriving Repr, DecidableEq

/-- Responses of `getPrescription`. -/
inductive GetRxOut where
  | notFound (message : String)
  | ok (body : FullRx)
  deriving Repr, DecidableEq

/-- HTTP status of each `getPrescription` response. -/
def GetRxOut.statusCode : GetRxOut → Nat
  | .notFound _ => 404
  | .ok _ => 200

/-- `getPrescription`: `findById` on the path parameter, populate all
three references, 404 when absent.  No field of `req.user` is read. -/
def getPrescription (db : DB) (req : GetRxReq) : GetRxOut :=
  match db.prescriptions.find? (fun p => p._id == req.prescriptionId) with
  | none => .notFound "Prescription not found"
  | some p => .ok (populateFullView db p)

/-! ## Doctor-profile controller -/

/-- Modelled from the spec: `uploadService.js` is not in `src/`; the
outcome of `uploadToCloudinary` on an uploaded file is a URL, or a
failure (the throw the controllers catch and turn into a 500). -/
inductive UploadRes where
  | uploaded (url : String)
  | failed
  deriving Repr, DecidableEq

/-- A create-doctor-profile request: `req.user.userId`, the body object,
and the optional uploaded file, carried together with its
`uploadToCloudinary` outcome. -/
structure CreateDocReq where
  userId : String
  body : List (String × String)
  file : Option UploadRes
  deriving Repr, DecidableEq

/-- Responses of `createDoctorProfile`. -/
inductive CreateDocOut where
  | invalidUserId (message : String)
  | conflict (message : String)
  | missingFields (message : String) (errSpecialization errQualifications : Option String)
  | uploadFailed (message : String)
  | created (message : String) (doctor : DoctorDoc)
  deriving Repr, DecidableEq

/-- HTTP status of each `createDoctorProfile` response. -/
def CreateDocOut.statusCode : CreateDocOut → Nat
  | .invalidUserId _ => 400
  | .conflict _ => 409
  | .missingFields .. => 400
  | .uploadFailed _ => 500
  | .created .. => 201

/-- JS truthiness of a body field: absent or empty is falsy. -/
def truthyField (data : List (String × String)) (k : String) : Bool :=
  match getField data k with
  | none => false
  | some v => truthy v

/-- `createDoctorProfile`: ObjectId format check, duplicate-profile check,
required-field check, optional upload, then persist. -/
def createDoctorProfile (db : DB) (req : CreateDocReq) (freshId : OId) :
    CreateDocOut × DB :=
  if !isValidObjectId req.userId then
    (.invalidUserId "Invalid user ID format", db)
  else
    match db.doctors.find? (fun d => d.userId == req.userId) with
    | some _ => (.conflict "Doctor profile already exists", db)
    | none =>
      let specOk := truthyField req.body "specialization"
      let qualOk := truthyField req.body "qualifications"
      if !specOk || !qualOk then
        (.missingFields "Specialization and qualifications are required"
          (if !specOk then some "Specialization is required" else none)
          (if !qualOk then some "Qualifications are required" else none), db)
      else
        match req.file with
        | some UploadRes.failed => (.uploadFailed "Failed to upload profile picture", db)
        | some (UploadRes.uploaded url) =>
          let doctor : DoctorDoc :=
            { _id := freshId, userId := req.userId,
              data := setField req.body "profilePicture" url }
          (.created "Doctor profile created successfully" doctor,
           { db with doctors := db.doctors ++ [doctor] })
        | none =>
          let doctor : DoctorDoc :=
            { _id := freshId, userId := req.userId, data := req.body }
          (.created "Doctor profile created successfully" doctor,
           { db with doctors := db.doctors ++ [doctor] })

/-- An update-doctor-profile request: `req.user.userId`, the body (absent
when no JSON body was sent), and the optional uploaded file. -/
structure UpdateDocReq where
  userId : String
  body : Option (List (String × String))
  file : Option UploadRes
  deriving Repr, DecidableEq

/-- Responses of `updateDoctorProfile`. -/
inductive UpdateDocOut where
  | noUpdates (message : String)
  | uploadFailed (message : String)
  | notFound (message : String)
  | ok (message : String) (doctor : DoctorDoc)
  deriving Repr, DecidableEq

/-- HTTP status of each `updateDoctorProfile` response. -/
def UpdateDocOut.statusCode : UpdateDocOut → Nat
  | .noUpdates _ => 400
  | .uploadFailed _ => 500
  | .notFound _ => 404
  | .ok .. => 200

/-- `updateDoctorProfile`: rejects when
`!updates || Object.keys(updates).length === 0 && !req.file`; otherwise
optional upload, then `findOneAndUpdate(\x7b userId \x7d, updates)`. -/
def updateDoctorProfile (db : DB) (req : UpdateDocReq) : UpdateDocOut × DB :=
  if req.body.isNone || ((req.body.getD []).isEmpty && req.file.isNone) then
    (.noUpdates "No updates provided", db)
  else
    let updates0 := req.body.getD []
    match req.file with
    | some UploadRes.failed => (.uploadFailed "Failed to upload profile picture", db)
    | fileRes =>
      let updates :=
        match fileRes with
        | some (UploadRes.uploaded url) => setField updates0 "profilePicture" url
        | _ => updates0
      match db.doctors.find? (fun d => d.userId == req.userId) with
      | none => (.notFound "Doctor profile not found", db)
      | some d =>
        let d2 : DoctorDoc := { d with data := applyUpdates d.data updates }
        (.ok "Doctor profile updated successfully" d2,
         { db with doctors := db.doctors.map (fun x => if x.userId == req.userId then d2 else x) })

/-- `select('-appointments -ratings -__v')` on a doctor document. -/
def selectClinicFields (d : DoctorDoc) : DoctorDoc :=
  { d with
    data := d.data.filter (fun kv => !(kv.1 == "appointments" || kv.1 == "ratings" || kv.1 == "__v")) }

/-- A doctor record as returned by `getDoctorsByClinic`: projected fields
plus the populated clinic reference. -/
structure ClinicDoctorView where
  doctor : DoctorDoc
  clinic : Option ClinicDoc
  deriving Repr, DecidableEq

/-- The projection-and-populate step of `getDoctorsByClinic`. -/
def clinicView (db : DB) (d : DoctorDoc) : ClinicDoctorView :=
  { doctor := selectClinicFields d
    clinic := db.clinics.find? (fun c => getField d.data "clinicId" == some c._id) }

/-- Responses of `getDoctorsByClinic`. -/
inductive ClinicOut where
  | invalidId (message : String)
  | noneFound (message : String) (suggestions : String)
  | ok (count : Nat) (doctors : List ClinicDoctorView)
  deriving Repr, DecidableEq

/-- HTTP status of each `getDoctorsByClinic` response. -/
def ClinicOut.statusCode : ClinicOut → Nat
  | .invalidId _ => 400
  | .noneFound .. => 404
  | .ok .. => 200

/-- `getDoctorsByClinic`: ObjectId format check, `find(\x7b clinicId \x7d)`,
404 with a suggestion when nothing matches, else 200 with the count. -/
def getDoctorsByClinic (db : DB) (clinicId : String) : ClinicOut :=
  if !isValidObjectId clinicId then
    .invalidId "Invalid clinic ID format"
  else
    let doctors := db.doctors.filter (fun d => getField d.data "clinicId" == some clinicId)
    if doctors.isEmpty then
      .noneFound "No doctors found for this clinic" "Check if the clinic ID is correct"
    else
      let views := doctors.map (clinicView db)
      .ok views.length views

/-! ## Helper lemmas -/

theorem insertDesc_perm (x : Prescription) (l : List Prescription) :
    (insertDesc x l).Perm (x :: l) := by
  induction l with
  | nil => simp [insertDesc]
  | cons y ys ih =>
    simp only [insertDesc]
    split
    · exact (ih.cons y).trans (List.Perm.swap x y ys)
    · exact List.Perm.refl _

theorem sortByDateDesc_perm (l : List Prescription) : (sortByDateDesc l).Perm l := by
  induction l with
  | nil => simp [sortByDateDesc]
  | cons y ys ih => exact (insertDesc_perm y (sortByDateDesc ys)).trans (ih.cons y)

theorem insertDesc_pairwise (x : Prescription) (l : List Prescription)
    (h : List.Pairwise (fun a b => b.date ≤ a.date) l) :
    List.Pairwise (fun a b => b.date ≤ a.date) (insertDesc x l) := by
  induction l with
  | nil => simp [insertDesc]
  | cons y ys ih =>
    simp only [insertDesc]
    rcases List.pairwise_cons.mp h with ⟨hy, hys⟩
    split
    · refine List.pairwise_cons.mpr ⟨?_, ih hys⟩
      intro b hb
      rcases List.mem_cons.mp ((insertDesc_perm x ys).mem_iff.mp hb) with rfl | hb
      · assumption
      · exact hy b hb
    · refine List.pairwise_cons.mpr ⟨?_, h⟩
      intro b hb
      rcases List.mem_cons.mp hb with rfl | hb
      · omega
      · have := hy b hb; omega

theorem sortByDateDesc_pairwise (l : List Prescription) :
    List.Pairwise (fun a b => b.date ≤ a.date) (sortByDateDesc l) := by
  induction l with
  | nil => simp [sortByDateDesc]
  | cons y ys ih => exact insertDesc_pairwise y (sortByDateDesc ys) ih

theorem collectMedErrors_eq (l : List Medication) (i : Nat) :
    collectMedErrors l i =
      ((List.enumFrom i l).filter (fun p => medMissingFields p.2)).map
        (fun p => "Medication " ++ toString (p.1 + 1) ++ " is missing required fields") := by
  induction l generalizing i with
  | nil => simp [collectMedErrors, List.enumFrom]
  | cons m rest ih =>
    simp only [collectMedErrors, List.enumFrom, List.filter]
    cases hm : medMissingFields m <;> simp [hm, ih]

theorem collectMedErrors_nil_iff (l : List Medication) (i : Nat) :
    collectMedErrors l i = [] ↔ l.filter medMissingFields = [] := by
  induction l generalizing i with
  | nil => simp [collectMedErrors]
  | cons m rest ih =>
    simp only [collectMedErrors, List.filter]
    cases hm : medMissingFields m <;> simp [hm, ih]

theorem map_populatePatientView_rx (db : DB) (l : List Prescription) :
    (l.map (populatePatientView db)).map PatientViewRx.rx = l := by
  induction l <;> simp_all [populatePatientView]

theorem map_populateDoctorView_rx (db : DB) (l : List Prescription) :
    (l.map (populateDoctorView db)).map DoctorViewRx.rx = l := by
  induction l <;> simp_all [populateDoctorView]

/-! ## Concrete fixtures -/

/-- A fully valid medication entry. -/
def exMed : Medication :=
  { name := "Paracetamol", dosage := "500mg", frequency := "2x daily", duration := "5 days" }

/-- A medication entry with empty dosage and duration. -/
def exMedBad : Medication :=
  { name := "Ibuprofen", dosage := "", frequency := "1x daily", duration := "" }

/-- An appointment owned by doctor `d1` for patient `pa1`. -/
def exAppt : Appointment :=
  { _id := "a1", doctorId := "d1", patientId := "pa1", date := 5, reason := "checkup",
    prescriptionId := none }

/-- The empty store. -/
def emptyDB : DB :=
  { users := [], admins := [], patients := [], doctors := [], clinics := [],
    appointments := [], prescriptions := [] }

/-- A store holding just `exAppt`. -/
def exDB : DB := { emptyDB with appointments := [exAppt] }

/-- A store where appointment `a1` exists but belongs to doctor `d2`. -/
def exDBOther : DB := { emptyDB with appointments := [{ exAppt with doctorId := "d2" }] }

/-- A well-formed create-prescription request by doctor `d1` for `a1`. -/
def exRxReq : RxReq :=
  { userId := "d1", appointmentId := "a1", diagnosis := "flu", medications := some [exMed],
    tests := [], notes := "", followUpDate := none }

/-- The same request with no `medications` field. -/
def exRxReqNoMeds : RxReq := { exRxReq with medications := none }

/-- The same request with two invalid medication entries (positions 1 and 3). -/
def exRxReqBadMeds : RxReq := { exRxReq with medications := some [exMedBad, exMed, exMedBad] }

/-! ## Claims C1-C4 -/

/-- C1, counterexample to the claim as stated: a create-prescription
request by doctor `d1` whose body lacks `medications`, against a store
with no appointment matching `(a1, d1)`.  The claim demands a 404
response; the code answers 400 from the presence validation, which runs
before the ownership lookup. -/
theorem C1_claim_counterexample :
    emptyDB.appointments.find? (fun a => a._id == "a1" && a.doctorId == "d1") = none ∧
    (createPrescription emptyDB exRxReqNoMeds "p9" 7).1.statusCode = 400 ∧
    (createPrescription emptyDB exRxReqNoMeds "p9" 7).1.statusCode ≠ 404 := by
  refine ⟨rfl, rfl, by decide⟩

/-- C1 (amended): for a create-prescription request that passes the
presence validation (non-empty `appointmentId` and a non-empty
`medications` list), if no appointment matches both the supplied id and
the requester as doctor, the response is the constant 404
`apptNotFound` — identical whichever store satisfies that condition, so
it does not reveal whether the appointment exists for another doctor —
and the store is unchanged. -/
theorem C1_ownership_404_amended (db : DB) (req : RxReq) (freshId : OId) (now : Int)
    (hApptId : truthy req.appointmentId = true)
    (hMedsSome : req.medications.isNone = false)
    (hMedsNonEmpty : (req.medications.getD []).isEmpty = false)
    (hNoMatch : db.appointments.find?
      (fun a => a._id == req.appointmentId && a.doctorId == req.userId) = none) :
    createPrescription db req freshId now =
      (CreateRxOut.apptNotFound "Appointment not found or not authorized", db) ∧
    (createPrescription db req freshId now).1.statusCode = 404 ∧
    (∀ db2 : DB, db2.appointments.find?
        (fun a => a._id == req.appointmentId && a.doctorId == req.userId) = none →
      (createPrescription db req freshId now).1 = (createPrescription db2 req freshId now).1) := by
  refine ⟨?_, ?_, ?_⟩
  · simp [createPrescription, hApptId, hMedsSome, hMedsNonEmpty, hNoMatch]
  · simp [createPrescription, hApptId, hMedsSome, hMedsNonEmpty, hNoMatch, CreateRxOut.statusCode]
  · intro db2 h2
    simp [createPrescription, hApptId, hMedsSome, hMedsNonEmpty, hNoMatch, h2]

/-- C1 witness: doctor `d1` targets appointment `a1`, which exists but
belongs to `d2`; the response is the 404 constant and the store is
untouched. -/
theorem C1_ownership_404_amended_witness :
    createPrescription exDBOther exRxReq "p9" 7 =
      (CreateRxOut.apptNotFound "Appointment not found or not authorized", exDBOther) :=
  (C1_ownership_404_amended exDBOther exRxReq "p9" 7 (by decide) (by decide) (by decide)
    (by decide)).1

/-- C2: a create-prescription request with an absent or empty
`medications` list gets a 400 `missingFields` response whose errors
object carries the medication-specific message, and the store (its
prescriptions and appointments included) is unchanged. -/
theorem C2_missing_medications_400 (db : DB) (req : RxReq) (freshId : OId) (now : Int)
    (h : req.medications = none ∨ req.medications = some []) :
    createPrescription db req freshId now =
      (CreateRxOut.missingFields "Appointment ID and medications are required"
        (if truthy req.appointmentId then none else some "Appointment ID is required")
        (some "At least one medication is required"), db) ∧
    (createPrescription db req freshId now).1.statusCode = 400 := by
  rcases h with h | h <;>
    cases htr : truthy req.appointmentId <;>
      constructor <;>
        simp [createPrescription, h, htr, CreateRxOut.statusCode]

/-- C2 witness: the request without a `medications` field gets the 400
response with the medication error, and the store is unchanged. -/
theorem C2_missing_medications_400_witness :
    createPrescription exDB exRxReqNoMeds "p9" 7 =
      (CreateRxOut.missingFields "Appointment ID and medications are required" none
        (some "At least one medication is required"), exDB) ∧
    (createPrescription exDB exRxReqNoMeds "p9" 7).1.statusCode = 400 := by
  have h := C2_missing_medications_400 exDB exRxReqNoMeds "p9" 7 (Or.inl rfl)
  exact ⟨by rw [h.1]; decide, h.2⟩

/-- C3: when the request passes the presence checks and the appointment
lookup, every medication entry missing one of the four required fields
contributes exactly one error naming its 1-based position, and all those
errors are returned together in one 400 response; the store is
unchanged. -/
theorem C3_batch_medication_validation (db : DB) (req : RxReq) (freshId : OId) (now : Int)
    (meds : List Medication) (appt : Appointment)
    (hMeds : req.medications = some meds)
    (hApptId : truthy req.appointmentId = true)
    (hNonEmpty : meds.isEmpty = false)
    (hFound : db.appointments.find?
      (fun a => a._id == req.appointmentId && a.doctorId == req.userId) = some appt)
    (hBad : meds.filter medMissingFields ≠ []) :
    createPrescription db req freshId now =
      (CreateRxOut.medValidationFailed "Medication validation failed"
        ((meds.enum.filter (fun p => medMissingFields p.2)).map
          (fun p => "Medication " ++ toString (p.1 + 1) ++ " is missing required fields")),
       db) ∧
    (createPrescription db req freshId now).1.statusCode = 400 := by
  have hcoll : collectMedErrors meds 0 ≠ [] :=
    fun hnil => hBad ((collectMedErrors_nil_iff meds 0).mp hnil)
  have hguard : (collectMedErrors meds 0).isEmpty = false := by
    cases hc : collectMedErrors meds 0 <;> simp_all
  have henum : meds.enum = List.enumFrom 0 meds := rfl
  constructor
  · simp only [createPrescription, hMeds, hApptId, hNonEmpty, hFound, Option.isNone_none,
      Option.getD_some, Bool.not_true, Bool.false_or, Bool.or_self, if_false, hguard,
      Bool.not_false, if_true]
    rw [henum, collectMedErrors_eq]
    simp
  · simp [createPrescription, hMeds, hApptId, hNonEmpty, hFound, hguard,
      CreateRxOut.statusCode]

/-- C3 witness: entries 1 and 3 of the medication list are invalid; both
position-naming errors come back in one 400 response. -/
theorem C3_batch_medication_validation_witness :
    createPrescription exDB exRxReqBadMeds "p9" 7 =
      (CreateRxOut.medValidationFailed "Medication validation failed"
        ["Medication 1 is missing required fields", "Medication 3 is missing required fields"],
       exDB) := by
  have h := (C3_batch_medication_validation exDB exRxReqBadMeds "p9" 7
    [exMedBad, exMed, exMedBad] exAppt rfl (by decide) (by decide) (by decide) (by decide)).1
  rw [h]
  decide

/-- C4: on the success path the persisted prescription's `doctorId`
equals the requester's `userId` and the matched appointment's
`doctorId`, its `patientId` equals the appointment's `patientId`, it is
appended to the prescription collection, and the appointment record is
rewritten with `prescriptionId` referencing the new document. -/
theorem C4_success_invariants (db : DB) (req : RxReq) (freshId : OId) (now : Int)
    (meds : List Medication) (appt : Appointment)
    (hMeds : req.medications = some meds)
    (hApptId : truthy req.appointmentId = true)
    (hNonEmpty : meds.isEmpty = false)
    (hFound : db.appointments.find?
      (fun a => a._id == req.appointmentId && a.doctorId == req.userId) = some appt)
    (hValid : meds.filter medMissingFields = []) :
    ∃ p : Prescription,
      createPrescription db req freshId now =
        (CreateRxOut.created "Prescription created successfully" p,
         { db with
           prescriptions := db.prescriptions ++ [p],
           appointments := db.appointments.map
             (fun a => if a._id == appt._id then
                { appt with prescriptionId := some p._id } else a) }) ∧
      p.doctorId = req.userId ∧ appt.doctorId = req.userId ∧ p.doctorId = appt.doctorId ∧
      p.patientId = appt.patientId ∧ p._id = freshId := by
  have hpred := List.find?_some hFound
  have hdoc : appt.doctorId = req.userId := by
    have := (Bool.and_eq_true _ _).mp hpred
    exact eq_of_beq this.2
  have hcoll : collectMedErrors meds 0 = [] := (collectMedErrors_nil_iff meds 0).mpr hValid
  refine ⟨{ _id := freshId, appointmentId := req.appointmentId, doctorId := req.userId,
            patientId := appt.patientId, diagnosis := req.diagnosis, medications := meds,
            tests := req.tests, notes := req.notes, followUpDate := req.followUpDate,
            date := now }, ?_, rfl, hdoc, hdoc.symm, rfl, rfl⟩
  simp [createPrescription, hMeds, hApptId, hNonEmpty, hFound, hcoll]

/-- C4 witness: the stored prescription for `exRxReq` carries doctor
`d1` and patient `pa1`, and the appointment is back-filled with its id. -/
theorem C4_success_invariants_witness :
    ∃ p : Prescription,
      (createPrescription exDB exRxReq "p9" 7).1 =
        CreateRxOut.created "Prescription created successfully" p ∧
      p.doctorId = "d1" ∧ p.patientId = "pa1" ∧
      (createPrescription exDB exRxReq "p9" 7).2.prescriptions = exDB.prescriptions ++ [p] := by
  obtain ⟨p, h1, h2, h3, h4, h5, h6⟩ := C4_success_invariants exDB exRxReq "p9" 7
    [exMed] exAppt rfl (by decide) (by decide) (by decide) (by decide)
  refine ⟨p, by rw [h1], by rw [h2]; rfl, by rw [h5]; rfl, by rw [h1]⟩

/-! ## Claims C5-C10 -/

/-- A stored user with role `patient`. -/
def exUser : UserDoc :=
  { _id := "u1", role := "patient", name := "Nila", specialization := "",
    licenseNumber := "", dateOfBirth := "1990-01-01", gender := "F" }

/-- A store holding `exUser` and their patient profile. -/
def exAuthDB : DB :=
  { emptyDB with users := [exUser], patients := [{ _id := "pp", userId := "u1" }] }

/-- A concrete verifier: accepts exactly the token `tok` as user `u1`. -/
def exVerify : String → Except Unit OId :=
  fun t => if t == "tok" then Except.ok "u1" else Except.error ()

/-- C5, counterexample to the claim as stated: a request bearing an
invalid token is rejected with 403 (`catch` branch), not with the
claimed 401. -/
theorem C5_claim_counterexample :
    authenticate exVerify exAuthDB (some "Bearer badtoken") =
      AuthOut.invalidToken "Invalid or expired token" ∧
    (authenticate exVerify exAuthDB (some "Bearer badtoken")).statusCode = some 403 ∧
    (authenticate exVerify exAuthDB (some "Bearer badtoken")).statusCode ≠ some 401 := by
  refine ⟨rfl, rfl, by decide⟩

/-- C5 (amended): the middleware rejects with 401 when the bearer token
is missing — the header absent, lacking a second space-separated
component, or carrying an empty one (`!token` falsiness) — with 403
when the token is invalid or expired, with 404 when the user record or
the role-specific profile record is absent, and otherwise attaches the
merged identity (user record, `userId`, `profileId`, `role`) and passes
control on. -/
theorem C5_auth_statuses_amended (verify : String → Except Unit OId) (db : DB)
    (header : Option String) :
    (extractToken header = none ∨ extractToken header = some "" →
      authenticate verify db header = AuthOut.missingToken "Authentication required" ∧
      (authenticate verify db header).statusCode = some 401) ∧
    (∀ t, extractToken header = some t → truthy t = true → verify t = Except.error () →
      authenticate verify db header = AuthOut.invalidToken "Invalid or expired token" ∧
      (authenticate verify db header).statusCode = some 403) ∧
    (∀ t uid, extractToken header = some t → truthy t = true → verify t = Except.ok uid →
      findUser db uid = none →
      authenticate verify db header = AuthOut.userNotFound "User not found" ∧
      (authenticate verify db header).statusCode = some 404) ∧
    (∀ t uid u, extractToken header = some t → truthy t = true → verify t = Except.ok uid →
      findUser db uid = some u → findProfile db u = none →
      authenticate verify db header = AuthOut.profileNotFound "Profile not found" ∧
      (authenticate verify db header).statusCode = some 404) ∧
    (∀ t uid u pid, extractToken header = some t → truthy t = true → verify t = Except.ok uid →
      findUser db uid = some u → findProfile db u = some pid →
      authenticate verify db header =
        AuthOut.ok { user := u, userId := u._id, profileId := pid, role := u.role }) := by
  refine ⟨?_, ?_, ?_, ?_, ?_⟩
  · rintro (h | h) <;> constructor <;> simp [authenticate, h, truthy, AuthOut.statusCode]
  all_goals intros; simp_all [authenticate, AuthOut.statusCode]

/-- C5 witness: the valid token `tok` for stored user `u1` with a
patient profile yields the merged identity. -/
theorem C5_auth_statuses_amended_witness :
    authenticate exVerify exAuthDB (some "Bearer tok") =
      AuthOut.ok { user := exUser, userId := "u1", profileId := "pp", role := "patient" } :=
  (C5_auth_statuses_amended exVerify exAuthDB (some "Bearer tok")).2.2.2.2
    "tok" "u1" exUser "pp" rfl rfl rfl rfl rfl

/-- A valid 24-hex ObjectId used as a user id. -/
def exDoctorUserId : String := "0123456789abcdef01234567"

/-- An existing doctor profile for `exDoctorUserId`. -/
def exDoctor : DoctorDoc :=
  { _id := "doc1", userId := exDoctorUserId,
    data := [("specialization", "cardio"), ("qualifications", "MD")] }

/-- A store holding `exDoctor`. -/
def exDoctorDB : DB := { emptyDB with doctors := [exDoctor] }

/-- A create-doctor-profile request whose body is invalid (no fields)
and whose file upload would fail — reached only after the duplicate
check. -/
def exDocReq : CreateDocReq :=
  { userId := exDoctorUserId, body := [], file := some UploadRes.failed }

/-- An update request with an empty body and no file. -/
def exUpdReq : UpdateDocReq := { userId := exDoctorUserId, body := some [], file := none }

/-- C6: when a doctor profile for the requester's `userId` already
exists, `createDoctorProfile` answers 409 and leaves the store
untouched, for every body and every file — the duplicate check runs
before field validation, upload, and write. -/
theorem C6_duplicate_profile_409 (db : DB) (req : CreateDocReq) (freshId : OId)
    (hValid : isValidObjectId req.userId = true)
    (hDup : (db.doctors.find? (fun d => d.userId == req.userId)).isSome = true) :
    createDoctorProfile db req freshId =
      (CreateDocOut.conflict "Doctor profile already exists", db) ∧
    (createDoctorProfile db req freshId).1.statusCode = 409 := by
  obtain ⟨d, hd⟩ := Option.isSome_iff_exists.mp hDup
  constructor <;> simp [createDoctorProfile, hValid, hd, CreateDocOut.statusCode]

/-- C6 witness: a duplicate create attempt with an invalid body and a
failing upload still answers 409 with the store unchanged. -/
theorem C6_duplicate_profile_409_witness :
    createDoctorProfile exDoctorDB exDocReq "x" =
      (CreateDocOut.conflict "Doctor profile already exists", exDoctorDB) :=
  (C6_duplicate_profile_409 exDoctorDB exDocReq "x" (by decide) (by decide)).1

/-- C7: an update request whose body is empty (or absent) and which
carries no file is rejected with 400 before any upload or write, the
store unchanged. -/
theorem C7_empty_update_400 (db : DB) (req : UpdateDocReq)
    (hBody : req.body = some [] ∨ req.body = none)
    (hFile : req.file = none) :
    updateDoctorProfile db req = (UpdateDocOut.noUpdates "No updates provided", db) ∧
    (updateDoctorProfile db req).1.statusCode = 400 := by
  rcases hBody with h | h <;>
    constructor <;> simp [updateDoctorProfile, h, hFile, UpdateDocOut.statusCode]

/-- C7 witness: the empty-body, no-file update against the store holding
`exDoctor` yields 400 and leaves the profile unchanged. -/
theorem C7_empty_update_400_witness :
    updateDoctorProfile exDoctorDB exUpdReq =
      (UpdateDocOut.noUpdates "No updates provided", exDoctorDB) :=
  (C7_empty_update_400 exDoctorDB exUpdReq (Or.inl rfl) rfl).1

/-- A valid 24-hex ObjectId used as a clinic id. -/
def exClinicId : String := "aaaaaaaaaaaaaaaaaaaaaaaa"

/-- A doctor attached to `exClinicId`. -/
def exClinicDoctor : DoctorDoc :=
  { _id := "doc2", userId := "u9", data := [("clinicId", exClinicId)] }

/-- A store holding `exClinicDoctor`. -/
def exClinicDB : DB := { emptyDB with doctors := [exClinicDoctor] }

/-- C8: for a well-formed clinic id, zero matching doctors yields the
404 response with its suggestion field; at least one match yields 200
with the count equal to the number of matches; and a 200 response never
carries an empty list. -/
theorem C8_clinic_no_doctors_404 (db : DB) (cid : String)
    (hValid : isValidObjectId cid = true) :
    (db.doctors.filter (fun d => getField d.data "clinicId" == some cid) = [] →
      getDoctorsByClinic db cid =
        ClinicOut.noneFound "No doctors found for this clinic"
          "Check if the clinic ID is correct" ∧
      (getDoctorsByClinic db cid).statusCode = 404) ∧
    (db.doctors.filter (fun d => getField d.data "clinicId" == some cid) ≠ [] →
      getDoctorsByClinic db cid =
        ClinicOut.ok (db.doctors.filter (fun d => getField d.data "clinicId" == some cid)).length
          ((db.doctors.filter (fun d => getField d.data "clinicId" == some cid)).map
            (clinicView db)) ∧
      (getDoctorsByClinic db cid).statusCode = 200) ∧
    (∀ n vs, getDoctorsByClinic db cid = ClinicOut.ok n vs → vs ≠ [] ∧ n = vs.length) := by
  refine ⟨?_, ?_, ?_⟩
  · intro hf
    constructor <;> simp [getDoctorsByClinic, hValid, hf, ClinicOut.statusCode]
  · intro hf
    have hie : (db.doctors.filter (fun d => getField d.data "clinicId" == some cid)).isEmpty
        = false := by
      cases h : db.doctors.filter (fun d => getField d.data "clinicId" == some cid) <;>
        simp_all
    constructor <;> simp [getDoctorsByClinic, hValid, hie, ClinicOut.statusCode]
  · intro n vs hok
    by_cases hf : db.doctors.filter (fun d => getField d.data "clinicId" == some cid) = []
    · simp [getDoctorsByClinic, hValid, hf] at hok
    · have hie : (db.doctors.filter (fun d => getField d.data "clinicId" == some cid)).isEmpty
          = false := by
        cases h : db.doctors.filter (fun d => getField d.data "clinicId" == some cid) <;>
          simp_all
      have hexp : getDoctorsByClinic db cid =
          ClinicOut.ok
            (db.doctors.filter (fun d => getField d.data "clinicId" == some cid)).length
            ((db.doctors.filter (fun d => getField d.data "clinicId" == some cid)).map
              (clinicView db)) := by
        simp [getDoctorsByClinic, hValid, hie]
      rw [hexp] at hok
      injection hok with hn hvs
      constructor
      · intro hnil
        rw [← hvs] at hnil
        exact hf (List.map_eq_nil_iff.mp hnil)
      · rw [← hn, ← hvs, List.length_map]

/-- C8 witness: the store holding one doctor for `exClinicId` answers
200 with count 1. -/
theorem C8_clinic_no_doctors_404_witness :
    getDoctorsByClinic exClinicDB exClinicId =
      ClinicOut.ok 1 [clinicView exClinicDB exClinicDoctor] := by
  have h := ((C8_clinic_no_doctors_404 exClinicDB exClinicId (by decide)).2.1 (by decide)).1
  rw [h]
  decide

/-- A stored prescription by doctor `d1` for patient `pa1`. -/
def exStoredRx : Prescription :=
  { _id := "p1", appointmentId := "a1", doctorId := "d1", patientId := "pa1", diagnosis := "",
    medications := [], tests := [], notes := "", followUpDate := none, date := 1 }

/-- A store holding `exStoredRx`. -/
def exListDB : DB := { emptyDB with prescriptions := [exStoredRx] }

/-- C9, counterexample to the claim as stated: the query parameter
`patientId` is present but empty; the claim demands the listing be
restricted to that `patientId`, yet the code ignores a falsy parameter
and returns a record whose `patientId` is not the given one. -/
theorem C9_claim_counterexample :
    (getDoctorPrescriptions exListDB "d1" (some "")).prescriptions.map DoctorViewRx.rx
      = [exStoredRx] ∧
    exStoredRx.patientId ≠ "" ∧
    exListDB.prescriptions.filter (fun p => p.doctorId == "d1" && p.patientId == "") = [] := by
  refine ⟨by decide, by decide, by decide⟩

/-- C9 (amended): the patient listing returns exactly the prescriptions
whose `patientId` is the requester's `userId`; the doctor listing
returns exactly those whose `doctorId` is the requester's `userId`,
further restricted to a given `patientId` when that query parameter is
present and non-empty; both are sorted by descending date and report a
count equal to the number of returned records. -/
theorem C9_listings_amended (db : DB) (uid : OId) (pidq : Option String) :
    ((getPatientPrescriptions db uid).prescriptions.map PatientViewRx.rx).Perm
      (db.prescriptions.filter (fun p => p.patientId == uid)) ∧
    List.Pairwise (fun a b => b.rx.date ≤ a.rx.date)
      (getPatientPrescriptions db uid).prescriptions ∧
    (getPatientPrescriptions db uid).count =
      (getPatientPrescriptions db uid).prescriptions.length ∧
    (pidq = none →
      ((getDoctorPrescriptions db uid pidq).prescriptions.map DoctorViewRx.rx).Perm
        (db.prescriptions.filter (fun p => p.doctorId == uid))) ∧
    (∀ pid, pidq = some pid → truthy pid = true →
      ((getDoctorPrescriptions db uid pidq).prescriptions.map DoctorViewRx.rx).Perm
        (db.prescriptions.filter (fun p => p.doctorId == uid && p.patientId == pid))) ∧
    List.Pairwise (fun a b => b.rx.date ≤ a.rx.date)
      (getDoctorPrescriptions db uid pidq).prescriptions ∧
    (getDoctorPrescriptions db uid pidq).count =
      (getDoctorPrescriptions db uid pidq).prescriptions.length := by
  have hp : (getPatientPrescriptions db uid).prescriptions =
      (sortByDateDesc (db.prescriptions.filter (fun p => p.patientId == uid))).map
        (populatePatientView db) := rfl
  have hd : (getDoctorPrescriptions db uid pidq).prescriptions =
      (sortByDateDesc (db.prescriptions.filter (doctorQuery uid pidq))).map
        (populateDoctorView db) := rfl
  refine ⟨?_, ?_, rfl, ?_, ?_, ?_, rfl⟩
  · rw [hp, map_populatePatientView_rx]
    exact sortByDateDesc_perm _
  · rw [hp]
    exact List.pairwise_map.mpr (sortByDateDesc_pairwise _)
  · intro hnone
    subst hnone
    rw [hd, map_populateDoctorView_rx]
    have hq : db.prescriptions.filter (doctorQuery uid none) =
        db.prescriptions.filter (fun p => p.doctorId == uid) :=
      List.filter_congr (fun x _ => by simp [doctorQuery])
    rw [hq]
    exact sortByDateDesc_perm _
  · intro pid hpid ht
    subst hpid
    rw [hd, map_populateDoctorView_rx]
    have hq : db.prescriptions.filter (doctorQuery uid (some pid)) =
        db.prescriptions.filter (fun p => p.doctorId == uid && p.patientId == pid) :=
      List.filter_congr (fun x _ => by simp [doctorQuery, ht])
    rw [hq]
    exact sortByDateDesc_perm _
  · rw [hd]
    exact List.pairwise_map.mpr (sortByDateDesc_pairwise _)

/-- C9 witness: doctor `d1` with the non-empty `patientId` query `pa1`
gets exactly the matching stored prescription. -/
theorem C9_listings_amended_witness :
    ((getDoctorPrescriptions exListDB "d1" (some "pa1")).prescriptions.map
      DoctorViewRx.rx).Perm
      (exListDB.prescriptions.filter (fun p => p.doctorId == "d1" && p.patientId == "pa1")) :=
  (C9_listings_amended exListDB "d1" (some "pa1")).2.2.2.2.1 "pa1" rfl (by decide)

/-- C10: `getPrescription` reads nothing of the authenticated requester:
any two identities supplying the same `prescriptionId` receive the
identical response, including the populated `licenseNumber` and
`dateOfBirth` fields of the `FullRx` body. -/
theorem C10_get_prescription_user_independent (db : DB) (a b : AuthUser) (pid : String) :
    getPrescription db { user := a, prescriptionId := pid } =
      getPrescription db { user := b, prescriptionId := pid } := rfl
